import Mathlib

/-!
Verification development for the RodioLabsV1 oracle node core.

The Python source is shallowly embedded in Lean 4:
* scalar sensor values become `ℚ` (the source uses exact decimal literals
  at every point the claims touch);
* Python dicts keyed by strings become association lists
  `List (String × α)` with Python's insert-or-replace assignment;
* stateful methods become functions from an explicit state to a new state;
* `raise` becomes `Except` with one constructor per raise site;
* nondeterministic inputs (the simulated peer vote, the simulated stake
  of a node, the wall clock) become explicit parameters.

Sections follow the source files:
  `src/core/aggregator.py`, `src/security/reputation.py`,
  `src/monitoring/metrics.py`, `src/security/staking.py`.
-/

/-! ### Association-list helpers (Python dict on string keys) -/

/-- Python `d[k] = v`: replace the binding if the key is present,
otherwise append a new binding (dicts hold each key once and preserve
insertion order). -/
def dictSet {α : Type} (m : List (String × α)) (k : String) (v : α) :
    List (String × α) :=
  match m with
  | [] => [(k, v)]
  | p :: rest => if p.1 == k then (k, v) :: rest else p :: dictSet rest k v

/-! ### `src/core/aggregator.py` -/

/-- `SensorReading` dataclass (aggregator.py lines 6-12). -/
structure SensorReading where
  value : ℚ
  timestamp : ℤ
  node_id : String
  signature : String
deriving DecidableEq

/-- Aggregator configuration (`DataAggregator.__init__`, lines 21-24). -/
structure AggConfig where
  consensus_threshold : ℚ
  outlier_tolerance : ℚ
  min_nodes : ℕ
deriving DecidableEq

/-- The defaults of `consensus_config.get` in `DataAggregator.__init__`:
threshold 0.8, tolerance 0.05, min_nodes 3. -/
def defaultConfig : AggConfig := ⟨4/5, 1/20, 3⟩

/-- `sorted(values)` on rationals. -/
def sortQ (l : List ℚ) : List ℚ := l.insertionSort (· ≤ ·)

/-- Python `statistics.median`: mean of the two middle elements of the
sorted list for even length, the middle element for odd length.
(The source only calls it on non-empty lists; `0` stands for the
`StatisticsError` of the empty case, which is unreachable.) -/
def median (l : List ℚ) : ℚ :=
  let s := sortQ l
  let n := s.length
  if n % 2 = 1 then s.getD (n / 2) 0
  else (s.getD (n / 2 - 1) 0 + s.getD (n / 2) 0) / 2

/-- `DataAggregator.validate_signatures` (lines 58-69): keep exactly the
readings whose signature has length 64. -/
def validate_signatures (readings : List SensorReading) : List SensorReading :=
  readings.filter (fun r => r.signature.length == 64)

/-- `DataAggregator.remove_outliers` (lines 71-101): IQR filter with
Q1 = sorted[n // 4], Q3 = sorted[3 * n // 4], 1.5·IQR bounds, skip when
fewer than 4 samples, fall back to the input when the filter empties the
set.  (The `try/except` is dead in this pure translation: both quartile
indices are in range for n ≥ 4.) -/
def remove_outliers (values : List ℚ) : List ℚ :=
  if values.length < 4 then values
  else
    let sorted_values := sortQ values
    let n := sorted_values.length
    let q1_idx := n / 4
    let q3_idx := 3 * n / 4
    let q1 := sorted_values.getD q1_idx 0
    let q3 := sorted_values.getD q3_idx 0
    let iqr := q3 - q1
    let lower_bound := q1 - 3/2 * iqr
    let upper_bound := q3 + 3/2 * iqr
    let filtered := values.filter (fun v => decide (lower_bound ≤ v) && decide (v ≤ upper_bound))
    if filtered.isEmpty then values else filtered

/-- `DataAggregator.check_consensus` (lines 103-134): empty → False,
singleton → True, otherwise count the values within the tolerance of the
median (0.1 absolute when the median is 0, else |median · tolerance|)
and compare the fraction with the threshold. -/
def check_consensus (cfg : AggConfig) (values : List ℚ) : Bool :=
  if values.isEmpty then false
  else if values.length == 1 then true
  else
    let m := median values
    let threshold := if m = 0 then (1 : ℚ)/10 else |m * cfg.outlier_tolerance|
    let within_threshold := values.filter (fun v => decide (|v - m| ≤ threshold))
    decide ((within_threshold.length : ℚ) / values.length ≥ cfg.consensus_threshold)

/-- The three raise sites of `aggregate_readings`:
`ValueError("Minimum … nœuds requis")` at line 29 — the spec's
InsufficientContributors —, `ConsensusError("Trop d'outliers …")` at
line 39 and `ConsensusError("Pas de consensus …")` at line 43. -/
inductive AggError where
  | insufficientContributors
  | tooManyOutliers
  | noConsensus
deriving DecidableEq

/-- The dict returned by `aggregate_readings` (lines 49-56).  The
float-valued `confidence` field (a square root of a variance) is not
modelled; no claim mentions its value. -/
structure AggResult where
  value : ℚ
  timestamp : ℤ
  nodes_participated : ℕ
  outliers_removed : ℕ
deriving DecidableEq

/-- `max(r.timestamp for r in rs)`; only called on non-empty lists. -/
def maxTimestamp (rs : List SensorReading) : ℤ :=
  match rs.map SensorReading.timestamp with
  | [] => 0
  | t :: ts => ts.foldl max t

/-- `DataAggregator.aggregate_readings` (lines 26-56): size gate on the
raw reading count, signature validation, IQR filtering, a second size
gate on the filtered count, consensus check, then the result record. -/
def aggregate_readings (cfg : AggConfig) (readings : List SensorReading) :
    Except AggError AggResult :=
  if readings.length < cfg.min_nodes then .error .insufficientContributors
  else
    let validated_readings := validate_signatures readings
    let values := validated_readings.map SensorReading.value
    let filtered_values := remove_outliers values
    if filtered_values.length < cfg.min_nodes then .error .tooManyOutliers
    else if ¬ check_consensus cfg filtered_values then .error .noConsensus
    else .ok {
      value := median filtered_values
      timestamp := maxTimestamp validated_readings
      nodes_participated := validated_readings.length
      outliers_removed := values.length - filtered_values.length
    }

/-! ### Spec-side formulations (for the refinement-style claims)

These definitions follow the words of the specification, to be compared
with the source-side definitions above. -/

/-- The spec's consensus tolerance of the claim in §4.4 step 4:
`τ = max(|m|·outlier_tolerance, absolute_floor)` with `absolute_floor`
defaulting to 0.1. -/
def claim_tolerance (cfg : AggConfig) (values : List ℚ) : ℚ :=
  max (|median values| * cfg.outlier_tolerance) (1/10)

/-- The consensus check as the claim states it: fraction of values within
`claim_tolerance` of the median at least `consensus_threshold`. -/
def claim_consensus (cfg : AggConfig) (values : List ℚ) : Bool :=
  decide (((values.filter
      (fun v => decide (|v - median values| ≤ claim_tolerance cfg values))).length : ℚ)
    / values.length ≥ cfg.consensus_threshold)

/-- The number of values within the code's tolerance of the median
(`agree` in the spec's words, with the tolerance the code computes). -/
def agree_count (cfg : AggConfig) (values : List ℚ) : ℕ :=
  (values.filter (fun v =>
    decide (|v - median values| ≤
      (if median values = 0 then (1 : ℚ)/10 else |median values * cfg.outlier_tolerance|)))).length

/-- The IQR filter in the words of the spec (§4.4 step 3): sort, take
`Q1 = v[n/4]`, `Q3 = v[3n/4]`, retain the values in
`[Q1 − 1.5·IQR, Q3 + 1.5·IQR]`, skip the filter when fewer than 4
samples, keep the unfiltered set when the retained set is empty. -/
def removeOutliersSpec (values : List ℚ) : List ℚ :=
  if values.length < 4 then values
  else
    let v := sortQ values
    let n := v.length
    let q1 := v.getD (n / 4) 0
    let q3 := v.getD (3 * n / 4) 0
    let iqr := q3 - q1
    let retained := values.filter (fun x =>
      decide (q1 - 3/2 * iqr ≤ x) && decide (x ≤ q3 + 3/2 * iqr))
    if retained.isEmpty then values else retained

/-- Percentile by linear interpolation on the sorted sample, the method
the spec's §4.7 claims for the metrics bus: rank `p/100 · (n − 1)`,
interpolate between the two neighbouring sorted samples. -/
def linearInterpPercentile (samples : List ℚ) (p : ℚ) : ℚ :=
  if samples.isEmpty then 0
  else
    let v := sortQ samples
    let n := v.length
    let rank := p / 100 * ((n : ℚ) - 1)
    let lo := ⌊rank⌋.toNat
    if lo + 1 < n then
      v.getD lo 0 + (rank - (⌊rank⌋ : ℚ)) * (v.getD (lo + 1) 0 - v.getD lo 0)
    else v.getD (n - 1) 0

/-! ### `src/security/reputation.py` -/

/-- `ReputationEvent` dataclass (reputation.py lines 6-13); the free-form
`details` dict is not modelled (the source only ever stores and re-exports
it). -/
structure ReputationEvent where
  node_id : String
  event_type : String
  impact : ℚ
  timestamp : ℤ
deriving DecidableEq

/-- The state of `ReputationSystem` (lines 18-31): the reputations dict
and the append-only event log. -/
structure RepSystem where
  node_reputations : List (String × ℚ)
  reputation_events : List ReputationEvent
deriving DecidableEq

/-- `self.reputation_weights` (lines 21-31): the nine recognized event
kinds with their impacts; `none` for every other string. -/
def reputation_weights (event_type : String) : Option ℚ :=
  if event_type == "consensus_success" then some (1/20)
  else if event_type == "consensus_failure" then some (-1/10)
  else if event_type == "data_quality_high" then some (3/100)
  else if event_type == "data_quality_low" then some (-1/20)
  else if event_type == "uptime_good" then some (1/50)
  else if event_type == "uptime_poor" then some (-2/25)
  else if event_type == "malicious_behavior" then some (-1/2)
  else if event_type == "stake_increase" then some (1/10)
  else if event_type == "stake_slash" then some (-3/10)
  else none

/-- `self.min_reputation = 0.0` (line 34). -/
def min_reputation : ℚ := 0

/-- `self.max_reputation = 1.0` (line 35). -/
def max_reputation : ℚ := 1

/-- `self.default_reputation = 0.8` (line 36). -/
def default_reputation : ℚ := 4/5

/-- `self.decay_rate = 0.001` (line 37). -/
def decay_rate : ℚ := 1/1000

/-- `ReputationSystem.get_reputation` (lines 41-47): returns the stored
score, inserting the default for an unknown node (a read with a write
side effect, hence the explicit state in the result). -/
def get_reputation (s : RepSystem) (node_id : String) : ℚ × RepSystem :=
  match s.node_reputations.lookup node_id with
  | some v => (v, s)
  | none =>
      (default_reputation,
       { s with node_reputations := s.node_reputations ++ [(node_id, default_reputation)] })

/-- `ReputationSystem.update_reputation` (lines 49-76): unknown event
kinds return without touching any state; known kinds clamp
`current + impact` into `[min_reputation, max_reputation]`, append the
event, and store the new score.  `now` stands for `int(time.time())`. -/
def update_reputation (s : RepSystem) (node_id event_type : String) (now : ℤ) : RepSystem :=
  match reputation_weights event_type with
  | none => s
  | some impact =>
      let cur := get_reputation s node_id
      let new_reputation :=
        max min_reputation (min max_reputation (cur.1 + impact))
      let event : ReputationEvent :=
        { node_id := node_id, event_type := event_type, impact := impact, timestamp := now }
      { node_reputations := dictSet cur.2.node_reputations node_id new_reputation
        reputation_events := cur.2.reputation_events ++ [event] }

/-- `ReputationSystem.apply_time_decay` (lines 78-93): every stored score
moves by `decay_rate · (score − 0.5)` toward 0.5 and is clamped into
`[min_reputation, max_reputation]`. -/
def apply_time_decay (s : RepSystem) : RepSystem :=
  { s with node_reputations := s.node_reputations.map (fun p =>
      (p.1, max min_reputation (min max_reputation (p.2 - decay_rate * (p.2 - 1/2))))) }

/-- Every stored reputation score lies in `[0, 1]`. -/
def repInRange (s : RepSystem) : Prop :=
  ∀ p ∈ s.node_reputations, 0 ≤ p.2 ∧ p.2 ≤ 1

instance (s : RepSystem) : Decidable (repInRange s) := by
  unfold repInRange; infer_instance

/-! ### `src/monitoring/metrics.py` -/

/-- `MetricsCollector.record_histogram` (lines 62-69) for one histogram
key: append the sample, then cut back to the last 1000 values
(`self.histograms[key][-1000:]`). -/
def record_histogram (h : List ℚ) (v : ℚ) : List ℚ :=
  let appended := h ++ [v]
  if appended.length > 1000 then appended.drop (appended.length - 1000) else appended

/-- `MetricsCollector.get_percentile` (lines 127-139) for one histogram
key: 0 for an empty histogram, otherwise the sorted sample at index
`min(int(p/100 · n), n − 1)`.  (`int` truncation and `⌊·⌋.toNat` agree
for the non-negative percentiles 50/95/99 the source passes.) -/
def get_percentile (h : List ℚ) (p : ℚ) : ℚ :=
  if h.isEmpty then 0
  else
    let values := sortQ h
    let index := min ⌊p / 100 * (values.length : ℚ)⌋.toNat (values.length - 1)
    values.getD index 0

/-! ### `src/security/staking.py` -/

/-- One entry of `self.slash_events` (staking.py lines 87-94). -/
structure SlashRecord where
  node_address : String
  amount : ℤ
  reason : String
  timestamp : ℤ
  tx_hash : String
deriving DecidableEq

/-- The mutable state of `StakingManager` the slashing path touches:
`self.slash_events` and `self.reputation_scores`. -/
structure StakingState where
  slash_events : List SlashRecord
  reputation_scores : List (String × ℚ)
deriving DecidableEq

/-- `auto_slash_reasons` (staking.py lines 113-118). -/
def auto_slash_reasons : List String :=
  ["data_manipulation", "double_spending", "malicious_consensus", "stake_below_minimum"]

/-- `StakingManager.is_consensus_slashing` (lines 106-140): automatic
consensus for the four listed reasons; otherwise a peer vote with a 75%
threshold.  The vote counts, drawn by `random.randint` in the source,
are explicit parameters. -/
def is_consensus_slashing (reason : String) (votes_for votes_against : ℕ) : Bool :=
  if reason ∈ auto_slash_reasons then true
  else decide ((votes_for : ℚ) / ((votes_for : ℚ) + (votes_against : ℚ)) ≥ 3/4)

/-- `StakingManager.update_reputation_score` (lines 142-149): default
score 1.0, clamp `current + delta` into `[0, 1]`. -/
def update_reputation_score (m : List (String × ℚ)) (node_address : String) (delta : ℚ) :
    List (String × ℚ) :=
  let current_score := (m.lookup node_address).getD 1
  dictSet m node_address (max 0 (min 1 (current_score + delta)))

/-- `StakingManager.slash_node` (lines 58-104): consensus gate, cap the
amount at the target's current stake, append the slash event, apply
−0.2 to the target's reputation score.  `stakeOf` stands for the
simulated `get_node_stake`, `now` for `int(time.time())`, `tx` for the
hash returned by `web3.send_transaction`. -/
def slash_node (s : StakingState) (stakeOf : String → ℤ)
    (votes_for votes_against : ℕ) (malicious_node : String) (amount : ℤ)
    (reason : String) (now : ℤ) (tx : String) : Bool × StakingState :=
  if ¬ is_consensus_slashing reason votes_for votes_against then (false, s)
  else
    let current_stake := stakeOf malicious_node
    let amount1 := if current_stake < amount then current_stake else amount
    let slash_event : SlashRecord :=
      { node_address := malicious_node, amount := amount1, reason := reason,
        timestamp := now, tx_hash := tx }
    (true,
     { slash_events := s.slash_events ++ [slash_event]
       reputation_scores := update_reputation_score s.reputation_scores malicious_node (-1/5) })

/-! ### Concrete inputs used by the witnesses and counterexamples -/

/-- A 64-character signature, valid for `validate_signatures`. -/
def sig64 : String := "0000000000000000000000000000000000000000000000000000000000000000"

/-- A configuration with `min_nodes = 5` and the default threshold and
tolerance. -/
def cfg5 : AggConfig := ⟨4/5, 1/20, 5⟩

/-- Five validly signed readings whose values are `[0, 0, 0, 0, 50]`. -/
def readings5 : List SensorReading :=
  [⟨0, 1, "n1", sig64⟩, ⟨0, 2, "n2", sig64⟩, ⟨0, 3, "n3", sig64⟩,
   ⟨0, 4, "n4", sig64⟩, ⟨50, 5, "n5", sig64⟩]

/-- Three readings `[23.0, 23.1, 22.9]`, the third with a 3-character
(invalid) signature. -/
def rsBadSig : List SensorReading :=
  [⟨23, 1, "n1", sig64⟩, ⟨231/10, 2, "n2", sig64⟩, ⟨229/10, 3, "n3", "bad"⟩]

/-- Three validly signed readings `[23.0, 23.1, 22.9]` (scenario S3). -/
def rsS3 : List SensorReading :=
  [⟨23, 1, "n1", sig64⟩, ⟨231/10, 2, "n2", sig64⟩, ⟨229/10, 3, "n3", sig64⟩]

/-- Two validly signed readings `[23.0, 23.1]` (scenario S4). -/
def rsS4 : List SensorReading :=
  [⟨23, 1, "n1", sig64⟩, ⟨231/10, 2, "n2", sig64⟩]

/-! ### Helper lemmas -/

/-- The IQR filter never invents values: its output is a sublist of its
input (it either returns the input, or a `filter` of it). -/
theorem remove_outliers_sublist (values : List ℚ) :
    (remove_outliers values).Sublist values := by
  unfold remove_outliers
  split
  · exact List.Sublist.refl _
  · dsimp only
    split
    · exact List.Sublist.refl _
    · exact List.filter_sublist _

/-- Looking up the key just set by `dictSet` yields the new value. -/
theorem lookup_dictSet_self {α : Type} (m : List (String × α)) (k : String) (v : α) :
    (dictSet m k v).lookup k = some v := by
  induction m with
  | nil => simp [dictSet, List.lookup]
  | cons p rest ih =>
    by_cases hp : p.1 = k
    · simp [dictSet, hp, List.lookup]
    · have hb : (p.1 == k) = false := by simp [hp]
      have hb2 : (k == p.1) = false := by simp [Ne.symm hp]
      simp [dictSet, hb, List.lookup, hb2, ih]

/-- Every entry of `dictSet m k v` is an entry of `m` or the new binding. -/
theorem mem_dictSet {α : Type} {m : List (String × α)} {k : String} {v : α}
    {p : String × α} (hp : p ∈ dictSet m k v) : p ∈ m ∨ p = (k, v) := by
  induction m with
  | nil => exact .inr (by simpa [dictSet] using hp)
  | cons q rest ih =>
    by_cases hq : q.1 = k
    · have hb : (q.1 == k) = true := by simp [hq]
      rw [dictSet, hb] at hp
      simp only [if_true] at hp
      rcases List.mem_cons.1 hp with rfl | h
      · exact .inr rfl
      · exact .inl (List.mem_cons_of_mem _ h)
    · have hb : (q.1 == k) = false := by simp [hq]
      rw [dictSet, hb] at hp
      simp only [Bool.false_eq_true, if_false] at hp
      rcases List.mem_cons.1 hp with rfl | h
      · exact .inl (List.mem_cons_self _ _)
      · rcases ih h with h | h
        · exact .inl (List.mem_cons_of_mem _ h)
        · exact .inr h

/-- `lookup` through a value-only `map` over an association list. -/
theorem lookup_map_value {α β : Type} (f : α → β) (m : List (String × α)) (k : String) :
    (m.map (fun p => (p.1, f p.2))).lookup k = (m.lookup k).map f := by
  induction m with
  | nil => rfl
  | cons p rest ih =>
    by_cases hk : k = p.1
    · simp [List.lookup, hk]
    · have hb : (k == p.1) = false := by simp [hk]
      simp [List.lookup, hb, ih]

/-- The clamp the reputation system applies lands in `[0, 1]`. -/
theorem clamp_unit_range (x : ℚ) :
    0 ≤ max min_reputation (min max_reputation x) ∧
      max min_reputation (min max_reputation x) ≤ 1 := by
  refine ⟨?_, ?_⟩
  · calc (0 : ℚ) = min_reputation := by norm_num [min_reputation]
      _ ≤ _ := le_max_left _ _
  · apply max_le
    · norm_num [min_reputation]
    · calc min max_reputation x ≤ max_reputation := min_le_left _ _
        _ ≤ 1 := by norm_num [max_reputation]

/-! ### Claims -/

/-- C4: for every list of scalar values, the IQR filter returns a list of
fewer than 4 elements unchanged, and otherwise keeps exactly the values
in `[Q1 − 1.5·IQR, Q3 + 1.5·IQR]` with `Q1 = sorted[n/4]`,
`Q3 = sorted[3n/4]`, falling back to the unfiltered input when the
retained set is empty — i.e. the source's `remove_outliers` coincides
with the spec's description `removeOutliersSpec`. -/
theorem remove_outliers_matches_spec (values : List ℚ) :
    remove_outliers values = removeOutliersSpec values ∧
      (values.length < 4 → remove_outliers values = values) := by
  constructor
  · rfl
  · intro h
    unfold remove_outliers
    rw [if_pos h]

/-- C5 counterexample: the IQR filter is not idempotent.  On
`[0, 0, 0, 0, 0, 0, 0.4, 100]` one application keeps
`[0, 0, 0, 0, 0, 0, 0.4]`; the second application recomputes the
quartiles (now `Q1 = Q3 = 0`, `IQR = 0`) and drops `0.4` as well. -/
theorem remove_outliers_not_idempotent :
    remove_outliers (remove_outliers [0, 0, 0, 0, 0, 0, 2/5, 100]) ≠
      remove_outliers [0, 0, 0, 0, 0, 0, 2/5, 100] := by
  have h1 : remove_outliers [(0:ℚ), 0, 0, 0, 0, 0, 2/5, 100] = [0, 0, 0, 0, 0, 0, 2/5] := by
    norm_num [remove_outliers, sortQ, List.insertionSort, List.orderedInsert,
      List.filter_cons, decide_eq_true_eq]
  have h2 : remove_outliers [(0:ℚ), 0, 0, 0, 0, 0, 2/5] = [0, 0, 0, 0, 0, 0] := by
    norm_num [remove_outliers, sortQ, List.insertionSort, List.orderedInsert,
      List.filter_cons, decide_eq_true_eq]
  rw [h1, h2]
  intro h
  have := congrArg List.length h
  simp at this

/-- C5 amended: each application of the IQR filter only removes values
(the output is a sublist of the input), so a second application yields a
sublist of the first application's result — but, as the counterexample
shows, not necessarily the same list. -/
theorem remove_outliers_twice_sublist (values : List ℚ) :
    (remove_outliers (remove_outliers values)).Sublist (remove_outliers values) :=
  remove_outliers_sublist _

/-- C10: an `update_reputation` call with an event type outside the nine
recognized kinds is a no-op: the stored reputations and the event log
are both unchanged. -/
theorem update_reputation_unknown_event_noop (s : RepSystem)
    (node_id event_type : String) (now : ℤ)
    (h : reputation_weights event_type = none) :
    update_reputation s node_id event_type now = s := by
  unfold update_reputation
  rw [h]

/-- C10 witness: a concrete unknown event kind on a concrete state. -/
theorem update_reputation_unknown_event_noop_witness :
    update_reputation ⟨[("a", 1)], []⟩ "a" "weird_event" 0 = ⟨[("a", 1)], []⟩ :=
  update_reputation_unknown_event_noop ⟨[("a", 1)], []⟩ "a" "weird_event" 0 (by decide)

/-- C2 counterexample: the InsufficientContributors gate tests the raw
reading count, not the signature-valid subset.  Three readings of which
one has an invalid signature leave only 2 < min_nodes valid readings,
yet aggregation fails with the outlier error, not the
InsufficientContributors one. -/
theorem size_gate_not_on_valid_subset :
    (validate_signatures rsBadSig).length < defaultConfig.min_nodes ∧
      aggregate_readings defaultConfig rsBadSig = .error .tooManyOutliers ∧
      aggregate_readings defaultConfig rsBadSig ≠ .error .insufficientContributors := by
  have hv : validate_signatures rsBadSig =
      [⟨23, 1, "n1", sig64⟩, ⟨231/10, 2, "n2", sig64⟩] := by rfl
  have hagg : aggregate_readings defaultConfig rsBadSig = .error .tooManyOutliers := by
    have hlen : rsBadSig.length = 3 := by decide
    simp only [aggregate_readings, hv, hlen]
    norm_num [defaultConfig, remove_outliers]
  refine ⟨by rw [hv]; decide, hagg, by rw [hagg]; simp⟩

/-- C2 amended: the size gate raising InsufficientContributors is on the
raw reading count, before signature validation; when the raw count
reaches `min_nodes` but the signature-valid subset (and hence the
filtered value set) stays below it, aggregation fails with the outlier
error instead.  In particular any input of fewer than `min_nodes`
readings — e.g. exactly 2 readings under the default `min_nodes = 3` —
fails with InsufficientContributors and emits no result. -/
theorem insufficient_contributors_gate (cfg : AggConfig) (readings : List SensorReading) :
    (readings.length < cfg.min_nodes →
      aggregate_readings cfg readings = .error .insufficientContributors) ∧
    (cfg.min_nodes ≤ readings.length →
      (validate_signatures readings).length < cfg.min_nodes →
      aggregate_readings cfg readings = .error .tooManyOutliers) := by
  constructor
  · intro h
    unfold aggregate_readings
    rw [if_pos h]
  · intro hraw hvalid
    have hle : (remove_outliers ((validate_signatures readings).map SensorReading.value)).length
        ≤ (validate_signatures readings).length := by
      calc (remove_outliers ((validate_signatures readings).map SensorReading.value)).length
          ≤ ((validate_signatures readings).map SensorReading.value).length :=
            (remove_outliers_sublist _).length_le
        _ = (validate_signatures readings).length := List.length_map _ _
    unfold aggregate_readings
    rw [if_neg (Nat.not_lt.mpr hraw)]
    dsimp only
    rw [if_pos (lt_of_le_of_lt hle hvalid)]

/-- C2 witness: scenario S4 — exactly 2 readings fail with
InsufficientContributors under the default configuration. -/
theorem insufficient_contributors_gate_witness :
    aggregate_readings defaultConfig rsS4 = .error .insufficientContributors :=
  (insufficient_contributors_gate defaultConfig rsS4).1 (by decide)

/-- C1 counterexample: with `min_nodes = 5`, five validly signed readings
`[0, 0, 0, 0, 50]` give `nodes_participated = 5 ≥ min_nodes` and a
consensus fraction of 1 ≥ 0.8 on the outlier-filtered set
`[0, 0, 0, 0]`, yet aggregation fails (the second size gate sees only 4
filtered values), refuting the claimed equivalence. -/
theorem aggregate_claimed_equivalence_fails :
    defaultConfig.consensus_threshold = cfg5.consensus_threshold ∧
    cfg5.min_nodes ≤ (validate_signatures readings5).length ∧
    cfg5.consensus_threshold ≤
      (agree_count cfg5 (remove_outliers ((validate_signatures readings5).map SensorReading.value)) : ℚ) /
        ((remove_outliers ((validate_signatures readings5).map SensorReading.value)).length : ℚ) ∧
    aggregate_readings cfg5 readings5 = .error .tooManyOutliers := by
  have hv : validate_signatures readings5 = readings5 := by decide
  have hvals : readings5.map SensorReading.value = [0, 0, 0, 0, 50] := by
    simp [readings5]
  have hro : remove_outliers [(0:ℚ), 0, 0, 0, 50] = [0, 0, 0, 0] := by
    norm_num [remove_outliers, sortQ, List.insertionSort, List.orderedInsert]
  refine ⟨rfl, by rw [hv]; decide, ?_, ?_⟩
  · rw [hv, hvals, hro]
    norm_num [agree_count, cfg5, median, sortQ, List.insertionSort, List.orderedInsert,
      List.filter_cons, decide_eq_true_eq]
  · simp only [aggregate_readings, hv, hvals, hro]
    norm_num [readings5, cfg5]

/-- C1 amended: `aggregate_readings` returns a result iff the raw
reading count and the outlier-filtered value count both reach
`min_nodes` and the consensus check passes on the filtered set; success
still implies `nodes_participated ≥ min_nodes` (the filtered set is a
sublist of the valid one), but not conversely. -/
theorem aggregate_success_iff (cfg : AggConfig) (readings : List SensorReading) :
    ((∃ res, aggregate_readings cfg readings = .ok res) ↔
      (cfg.min_nodes ≤ readings.length ∧
       cfg.min_nodes ≤ (remove_outliers ((validate_signatures readings).map SensorReading.value)).length ∧
       check_consensus cfg (remove_outliers ((validate_signatures readings).map SensorReading.value)) = true)) ∧
    (∀ res, aggregate_readings cfg readings = .ok res →
      cfg.min_nodes ≤ res.nodes_participated) := by
  have hle : (remove_outliers ((validate_signatures readings).map SensorReading.value)).length
      ≤ (validate_signatures readings).length := by
    calc (remove_outliers ((validate_signatures readings).map SensorReading.value)).length
        ≤ ((validate_signatures readings).map SensorReading.value).length :=
          (remove_outliers_sublist _).length_le
      _ = (validate_signatures readings).length := List.length_map _ _
  by_cases h1 : readings.length < cfg.min_nodes
  · have heq : aggregate_readings cfg readings = .error .insufficientContributors := by
      unfold aggregate_readings; rw [if_pos h1]
    refine ⟨⟨fun ⟨res, hres⟩ => ?_, fun ⟨hA, _, _⟩ => absurd h1 (Nat.not_lt.mpr hA)⟩,
      fun res hres => ?_⟩
    · rw [heq] at hres; cases hres
    · rw [heq] at hres; cases hres
  · by_cases h2 : (remove_outliers ((validate_signatures readings).map SensorReading.value)).length
        < cfg.min_nodes
    · have heq : aggregate_readings cfg readings = .error .tooManyOutliers := by
        unfold aggregate_readings; rw [if_neg h1]; dsimp only; rw [if_pos h2]
      refine ⟨⟨fun ⟨res, hres⟩ => ?_, fun ⟨_, hB, _⟩ => absurd h2 (Nat.not_lt.mpr hB)⟩,
        fun res hres => ?_⟩
      · rw [heq] at hres; cases hres
      · rw [heq] at hres; cases hres
    · by_cases h3 : check_consensus cfg
          (remove_outliers ((validate_signatures readings).map SensorReading.value)) = true
      · have heq : aggregate_readings cfg readings = .ok
            { value := median (remove_outliers ((validate_signatures readings).map SensorReading.value))
              timestamp := maxTimestamp (validate_signatures readings)
              nodes_participated := (validate_signatures readings).length
              outliers_removed := ((validate_signatures readings).map SensorReading.value).length -
                (remove_outliers ((validate_signatures readings).map SensorReading.value)).length } := by
          unfold aggregate_readings
          rw [if_neg h1]
          dsimp only
          rw [if_neg h2, if_neg (not_not.mpr h3)]
        refine ⟨⟨fun _ => ⟨Nat.le_of_not_lt h1, Nat.le_of_not_lt h2, h3⟩,
          fun _ => ⟨_, heq⟩⟩, fun res hres => ?_⟩
        rw [heq] at hres
        obtain rfl := (Except.ok.inj hres).symm
        exact le_trans (Nat.le_of_not_lt h2) hle
      · have heq : aggregate_readings cfg readings = .error .noConsensus := by
          unfold aggregate_readings; rw [if_neg h1]; dsimp only; rw [if_neg h2, if_pos h3]
        refine ⟨⟨fun ⟨res, hres⟩ => ?_, fun ⟨_, _, hC⟩ => absurd hC h3⟩,
          fun res hres => ?_⟩
        · rw [heq] at hres; cases hres
        · rw [heq] at hres; cases hres

/-- C1 witness: scenario S3 — three validly signed readings
`[23.0, 23.1, 22.9]` under the default configuration succeed. -/
theorem aggregate_success_iff_witness :
    ∃ res, aggregate_readings defaultConfig rsS3 = .ok res := by
  have hv : validate_signatures rsS3 = rsS3 := by rfl
  have hvals : rsS3.map SensorReading.value = [23, 231/10, 229/10] := by
    simp [rsS3]
  have hro : remove_outliers [(23:ℚ), 231/10, 229/10] = [23, 231/10, 229/10] := by rfl
  apply (aggregate_success_iff defaultConfig rsS3).1.mpr
  refine ⟨by decide, ?_, ?_⟩
  · rw [hv, hvals, hro]; decide
  · rw [hv, hvals, hro]
    norm_num [check_consensus, defaultConfig, median, sortQ, List.insertionSort,
      List.orderedInsert, List.filter_cons, decide_eq_true_eq, abs_le, abs_of_nonneg]

/-- C3 counterexample: the absolute floor 0.1 is applied only when the
median is exactly 0, not through a `max`.  On `[0.01, 0.02, 0.03]`
(median 0.02) the code's tolerance is `|0.02 · 0.05| = 0.001`, so only
1/3 of the values agree and the check fails, while the claimed
`τ = max(|m|·tol, 0.1) = 0.1` would accept all three values. -/
theorem consensus_tolerance_not_max_with_floor :
    claim_consensus defaultConfig [1/100, 2/100, 3/100] = true ∧
      check_consensus defaultConfig [1/100, 2/100, 3/100] = false := by
  constructor
  · norm_num [claim_consensus, claim_tolerance, defaultConfig, median, sortQ,
      List.insertionSort, List.orderedInsert, List.filter_cons, decide_eq_true_eq,
      abs_le, abs_of_nonneg]
  · norm_num [check_consensus, defaultConfig, median, sortQ, List.insertionSort,
      List.orderedInsert, List.filter_cons, decide_eq_true_eq, abs_le, abs_of_nonneg]

/-- C3 amended: for every non-empty value list, the consensus check
succeeds iff the list is a singleton (unconditionally accepted) or the
fraction of values within the code's tolerance of the median — 0.1
absolute when the median is exactly 0, else `|median · tolerance|`, with
no `max` against an absolute floor — is at least `consensus_threshold`. -/
theorem check_consensus_characterization (cfg : AggConfig) (values : List ℚ)
    (h : values ≠ []) :
    check_consensus cfg values = true ↔
      (values.length = 1 ∨
        cfg.consensus_threshold ≤ (agree_count cfg values : ℚ) / (values.length : ℚ)) := by
  unfold check_consensus agree_count
  rw [if_neg (by simpa using h)]
  by_cases h1 : values.length = 1
  · simp [h1]
  · have hb : (values.length == 1) = false := by simpa using h1
    rw [hb]
    simp only [Bool.false_eq_true, if_false, decide_eq_true_eq, ge_iff_le]
    constructor
    · exact fun hc => Or.inr hc
    · rintro (hc | hc)
      · exact absurd hc h1
      · exact hc

/-- C3 witness: `[0, 0]` at the default threshold — the median is 0, the
absolute tolerance 0.1 applies, both values agree, 2/2 ≥ 0.8. -/
theorem check_consensus_characterization_witness :
    check_consensus defaultConfig [0, 0] = true := by
  apply (check_consensus_characterization defaultConfig [0, 0] (by simp)).mpr
  refine Or.inr ?_
  norm_num [agree_count, defaultConfig, median, sortQ, List.insertionSort,
    List.orderedInsert, List.filter_cons, decide_eq_true_eq]

/-- C6: reputation scores stay in `[0, 1]`: a state whose stored scores
are all in `[0, 1]` still is after any `update_reputation` call (the new
score is clamped, the default for a first-seen node is 0.8, untouched
nodes keep their old scores), and after any `apply_time_decay` pass
every stored score is in `[0, 1]` unconditionally (each is clamped). -/
theorem reputation_clamped_invariant (s : RepSystem) (node_id event_type : String) (now : ℤ) :
    (repInRange s → repInRange (update_reputation s node_id event_type now)) ∧
      repInRange (apply_time_decay s) := by
  constructor
  · intro hs
    unfold update_reputation
    cases hw : reputation_weights event_type with
    | none => exact hs
    | some impact =>
      unfold get_reputation
      cases hl : s.node_reputations.lookup node_id with
      | some v =>
        dsimp only [repInRange]
        intro p hp
        rcases mem_dictSet hp with h | h
        · exact hs p h
        · rw [h]
          exact clamp_unit_range _
      | none =>
        dsimp only [repInRange]
        intro p hp
        rcases mem_dictSet hp with h | h
        · rcases List.mem_append.1 h with h | h
          · exact hs p h
          · have : p = (node_id, default_reputation) := by simpa using h
            rw [this]
            norm_num [default_reputation]
        · rw [h]
          exact clamp_unit_range _
  · intro p hp
    unfold apply_time_decay at hp
    rcases List.mem_map.1 hp with ⟨q, _, rfl⟩
    exact clamp_unit_range _

/-- C6 witness: a concrete in-range state stays in range through a
`malicious_behavior` event (which would push the raw score to −0.3 but
is clamped to 0). -/
theorem reputation_clamped_invariant_witness :
    repInRange (update_reputation ⟨[("a", 1/5)], []⟩ "a" "malicious_behavior" 5) ∧
      repInRange (apply_time_decay ⟨[("a", 1/5)], []⟩) := by
  have h := reputation_clamped_invariant ⟨[("a", 1/5)], []⟩ "a" "malicious_behavior" 5
  refine ⟨h.1 ?_, h.2⟩
  intro p hp
  have : p = ("a", (1:ℚ)/5) := by simpa using hp
  rw [this]
  norm_num

/-- C7: one `apply_time_decay` pass maps a stored score `r ∈ [0, 1]` to
exactly `r − decay_rate·(r − 0.5)` (the clamp cannot bite), which is
linear decay toward 0.5 at the configured daily rate:
`new − 0.5 = (1 − decay_rate)·(r − 0.5)`, and a score exactly at 0.5 is
left unchanged. -/
theorem decay_moves_toward_half (s : RepSystem) (node_id : String) (r : ℚ)
    (hl : s.node_reputations.lookup node_id = some r) (h0 : 0 ≤ r) (h1 : r ≤ 1) :
    (apply_time_decay s).node_reputations.lookup node_id
        = some (r - decay_rate * (r - 1/2)) ∧
      (r - decay_rate * (r - 1/2)) - 1/2 = (1 - decay_rate) * (r - 1/2) ∧
      (r = 1/2 → r - decay_rate * (r - 1/2) = 1/2) := by
  have hd0 : 0 ≤ r - decay_rate * (r - 1/2) := by
    unfold decay_rate; linarith
  have hd1 : r - decay_rate * (r - 1/2) ≤ 1 := by
    unfold decay_rate; linarith
  refine ⟨?_, by ring, fun hr => by rw [hr]; ring⟩
  unfold apply_time_decay
  dsimp only
  rw [lookup_map_value
    (fun v => max min_reputation (min max_reputation (v - decay_rate * (v - 1/2))))
    s.node_reputations node_id, hl]
  show some (max min_reputation (min max_reputation (r - decay_rate * (r - 1/2))))
    = some (r - decay_rate * (r - 1/2))
  rw [min_eq_right (by simpa [max_reputation] using hd1),
    max_eq_right (by simpa [min_reputation] using hd0)]

/-- C7 witness: the node at score 1 decays to 1 − 0.001·0.5 = 0.9995. -/
theorem decay_moves_toward_half_witness :
    (apply_time_decay ⟨[("a", 1)], []⟩).node_reputations.lookup "a"
      = some (1 - decay_rate * (1 - 1/2)) :=
  (decay_moves_toward_half ⟨[("a", 1)], []⟩ "a" 1 (by decide) (by norm_num) (by norm_num)).1

/-- C8 counterexample: the exported percentile is not linear
interpolation.  On the two samples `[0, 10]`, P50 by linear
interpolation on the sorted sample is 5, but `get_percentile` selects
the sorted sample at index `min(int(0.5·2), 1) = 1` and returns 10. -/
theorem percentile_not_linear_interp :
    get_percentile [0, 10] 50 = 10 ∧ linearInterpPercentile [0, 10] 50 = 5 := by
  constructor
  · norm_num [get_percentile, sortQ, List.insertionSort, List.orderedInsert]
  · norm_num [linearInterpPercentile, sortQ, List.insertionSort, List.orderedInsert]

/-- C8 amended: the histogram reservoir keeps exactly the last 1000
recorded samples (each write appends and then truncates to the final
1000), and the exported percentile is one of the retained samples — the
sorted sample at index `min(⌊p/100·n⌋, n−1)`, a rank selection, not a
linear interpolation. -/
theorem histogram_retention_and_percentile (h : List ℚ) (v : ℚ) (p : ℚ) :
    record_histogram h v = (h ++ [v]).drop ((h ++ [v]).length - 1000) ∧
      (h ≠ [] → get_percentile h p ∈ h) := by
  constructor
  · unfold record_histogram
    dsimp only
    split
    · rfl
    · rw [Nat.sub_eq_zero_of_le (Nat.le_of_not_lt (by assumption)), List.drop_zero]
  · intro hne
    unfold get_percentile
    rw [if_neg (by simpa using hne)]
    dsimp only
    have hlen : (sortQ h).length = h.length := (List.perm_insertionSort _ h).length_eq
    have hpos : 0 < h.length := List.length_pos.mpr hne
    have hidx : min (⌊p / 100 * ((sortQ h).length : ℚ)⌋.toNat) ((sortQ h).length - 1)
        < (sortQ h).length := by
      rw [hlen]
      exact lt_of_le_of_lt (min_le_right _ _) (Nat.sub_lt hpos one_pos)
    rw [List.getD_eq_getElem _ _ hidx]
    exact (List.perm_insertionSort _ h).subset (List.getElem_mem _)

/-- C8 witness: one write to a 2-sample histogram keeps all 3 samples,
and P50 of `[0, 10]` is one of the recorded samples. -/
theorem histogram_retention_and_percentile_witness :
    record_histogram [0, 10] 3
        = (([0, 10] : List ℚ) ++ [3]).drop ((([0, 10] : List ℚ) ++ [3]).length - 1000) ∧
      get_percentile [0, 10] 50 ∈ ([0, 10] : List ℚ) :=
  ⟨(histogram_retention_and_percentile [0, 10] 3 50).1,
   (histogram_retention_and_percentile [0, 10] 3 50).2 (by simp)⟩

/-- C9: a slash proceeds iff the reason is one of the four auto-slash
reasons or the peer vote reaches 75% approval; on approval the recorded
amount is capped at the target's current stake, exactly one SlashRecord
is appended, and −0.2 (clamped into `[0,1]`, from a default score of 1)
is applied to the target's reputation score. -/
theorem slash_node_characterization (s : StakingState) (stakeOf : String → ℤ)
    (votes_for votes_against : ℕ) (malicious_node : String) (amount : ℤ)
    (reason : String) (now : ℤ) (tx : String) :
    ((slash_node s stakeOf votes_for votes_against malicious_node amount reason now tx).1 = true ↔
      (reason ∈ auto_slash_reasons ∨
        (3/4 : ℚ) ≤ (votes_for : ℚ) / ((votes_for : ℚ) + (votes_against : ℚ)))) ∧
    ((slash_node s stakeOf votes_for votes_against malicious_node amount reason now tx).1 = true →
      (slash_node s stakeOf votes_for votes_against malicious_node amount reason now tx).2.slash_events
          = s.slash_events ++
            [⟨malicious_node, min amount (stakeOf malicious_node), reason, now, tx⟩] ∧
        (slash_node s stakeOf votes_for votes_against malicious_node amount reason now tx).2.reputation_scores.lookup malicious_node
          = some (max 0 (min 1 ((s.reputation_scores.lookup malicious_node).getD 1 - 1/5)))) := by
  have hmin : (if stakeOf malicious_node < amount then stakeOf malicious_node else amount)
      = min amount (stakeOf malicious_node) := by
    rcases lt_or_le (stakeOf malicious_node) amount with h | h
    · rw [if_pos h, min_eq_right h.le]
    · rw [if_neg (not_lt.mpr h), min_eq_left h]
  have hcons : is_consensus_slashing reason votes_for votes_against = true ↔
      (reason ∈ auto_slash_reasons ∨
        (3/4 : ℚ) ≤ (votes_for : ℚ) / ((votes_for : ℚ) + (votes_against : ℚ))) := by
    unfold is_consensus_slashing
    split
    · simp [*]
    · simp [*, ge_iff_le]
  by_cases hc : is_consensus_slashing reason votes_for votes_against = true
  · have heq : slash_node s stakeOf votes_for votes_against malicious_node amount reason now tx
        = (true,
           { slash_events := s.slash_events ++
               [⟨malicious_node, min amount (stakeOf malicious_node), reason, now, tx⟩]
             reputation_scores :=
               update_reputation_score s.reputation_scores malicious_node (-1/5) }) := by
      unfold slash_node
      rw [if_neg (not_not.mpr hc)]
      dsimp only
      rw [hmin]
    rw [heq]
    refine ⟨by simpa using hcons.mp hc, fun _ => ⟨rfl, ?_⟩⟩
    unfold update_reputation_score
    dsimp only
    rw [lookup_dictSet_self]
    congr 1
    ring_nf
  · have heq : slash_node s stakeOf votes_for votes_against malicious_node amount reason now tx
        = (false, s) := by
      unfold slash_node
      rw [if_pos hc]
    rw [heq]
    constructor
    · simp only [Bool.false_eq_true, false_iff]
      intro hor
      exact hc (hcons.mpr hor)
    · intro hfalse
      cases hfalse

/-- C9 witness: a non-auto reason with a 3-to-1 vote (75% approval)
slashes a node whose stake (5000) is below the requested amount (9000):
the recorded amount is 5000 and the reputation drops from the default 1
to 0.8. -/
theorem slash_node_characterization_witness :
    (slash_node ⟨[], []⟩ (fun _ => 5000) 3 1 "nodeX" 9000 "custom_reason" 7 "0xabc").1 = true ∧
    (slash_node ⟨[], []⟩ (fun _ => 5000) 3 1 "nodeX" 9000 "custom_reason" 7 "0xabc").2.slash_events
      = [⟨"nodeX", 5000, "custom_reason", 7, "0xabc"⟩] ∧
    (slash_node ⟨[], []⟩ (fun _ => 5000) 3 1 "nodeX" 9000 "custom_reason" 7 "0xabc").2.reputation_scores.lookup "nodeX"
      = some (4/5) := by
  have h := slash_node_characterization ⟨[], []⟩ (fun _ => 5000) 3 1 "nodeX" 9000
    "custom_reason" 7 "0xabc"
  have h1 : (slash_node ⟨[], []⟩ (fun _ => 5000) 3 1 "nodeX" 9000 "custom_reason" 7 "0xabc").1
      = true := by
    apply h.1.mpr
    right
    norm_num
  obtain ⟨h2, h3⟩ := h.2 h1
  refine ⟨h1, ?_, ?_⟩
  · rw [h2]
    norm_num [min_def]
  · rw [h3]
    norm_num [List.lookup, min_def, max_def]

/-- C4 witness: the filter leaves a 3-element list unchanged. -/
theorem remove_outliers_matches_spec_witness :
    remove_outliers [1, 2, 3] = removeOutliersSpec [1, 2, 3] ∧
      remove_outliers [1, 2, 3] = [1, 2, 3] :=
  ⟨(remove_outliers_matches_spec [1, 2, 3]).1,
   (remove_outliers_matches_spec [1, 2, 3]).2 (by decide)⟩
